import Mathlib

set_option maxHeartbeats 1000000

/-!
Shallow embedding of the SoccerTrack multi-object tracking core.

Two orchestrators are embedded:

* `mot_base` models `src/sportslabkit/mot/base.py` (the ABC-based
  `MultiObjectTracker`): per-frame processing over an abstract subclass
  `update`, staleness management, stale-tracklet cleanup, and the `track`
  driver loop.
* `tracking_model` models `src/sportslabkit/tracking_model/multi_object_tracker.py`
  (the Kalman/motpy-style `MultiObjectTracker`): the `step` method that applies
  a matching result, spawns trackers for unassigned detections, miss-updates
  unassigned trackers, performs cleanup and advances the step counter.

The `Tracklet` class itself is not part of the provided sources; the few
tracklet operations the orchestrators need (`update`, `is_stale`, `cleanup`,
`len`, observation recording) are modelled from the spec and marked as such
in their doc comments.  Machine integers appear only as sizes and counters,
so they are modelled as `Nat` (no overflow is reachable in the embedded
fragments).
-/

namespace mot_base

/-- An opaque observation value (a box, a score, ...). -/
abbrev Obs := Nat

/-- A Python dict of observation-type name to value, as passed to
`update_tracklet` (order of keys is irrelevant for the embedded code,
which only tests key membership). -/
abbrev StateDict := List (String × Obs)

/-- Modelled from the spec: the mutable state of one tracked object.
`observations` is the append-only per-frame history (the spec's per-type
histories are folded into one list of per-frame dicts; only its length and
the recorded frame indices matter to the orchestrator).  `terminated` models
the terminal marking performed by `Tracklet.cleanup` (the spec says `cleanup`
performs no state change beyond marking terminal status). -/
structure Tracklet where
  max_staleness : Nat
  staleness : Nat
  observations : List (Nat × StateDict)
  counter : Nat
  terminated : Bool
deriving DecidableEq, Repr

/-- Modelled from the spec: `len(tracklet)` is the length of its recorded
observation history. -/
def Tracklet.len (t : Tracklet) : Nat := t.observations.length

/-- Modelled from the spec: `Tracklet.is_stale()` is true iff
`staleness > max_staleness`. -/
def Tracklet.is_stale (t : Tracklet) : Bool := t.max_staleness < t.staleness

/-- Modelled from the spec: `Tracklet.cleanup()` marks the tracklet terminal
and performs no other state change. -/
def Tracklet.cleanup (t : Tracklet) : Tracklet := { t with terminated := true }

/-- Modelled from the spec: `Tracklet.update_observations(states, frame_count)`
appends the frame's states to the history at the given frame index. -/
def update_observations (t : Tracklet) (states : StateDict) (frame_count : Nat) : Tracklet :=
  { t with observations := t.observations ++ [(frame_count, states)] }

/-- Modelled from the spec: `Tracklet.increment_counter()`. -/
def increment_counter (t : Tracklet) : Tracklet := { t with counter := t.counter + 1 }

/-- Embeds `MultiObjectTracker._check_required_observations`: `true` iff the
list of required observation types missing from `target` is empty
(`missing_types = [r for r in required if r not in target]`). -/
def check_required_observations (required : List String) (target : StateDict) : Bool :=
  (required.filter (fun r => !((target.map Prod.fst).contains r))).isEmpty

/-- Embeds `MultiObjectTracker.update_tracklet`: validate the states against
the required observation types first (raising `ValueError` on a missing type,
modelled as `Except.error`), then append the observations and increment the
tracklet's counter. -/
def update_tracklet (required : List String) (t : Tracklet) (states : StateDict)
    (frame_count : Nat) : Except String Tracklet :=
  if check_required_observations required states then
    .ok (increment_counter (update_observations t states frame_count))
  else
    .error "missing required observation types"

/-- The orchestrator registry state owned by the ABC `MultiObjectTracker`:
live tracklets, archived (dead) tracklets, and the frame counter. -/
structure MOTState where
  alive_tracklets : List Tracklet
  dead_tracklets : List Tracklet
  frame_count : Nat
deriving DecidableEq, Repr

/-- Embeds `MultiObjectTracker.reset`: empty registries and frame counter 0. -/
def reset_state : MOTState :=
  { alive_tracklets := [], dead_tracklets := [], frame_count := 0 }

/-- Embeds `MultiObjectTracker.reset_staleness`: set every tracklet's
staleness to 0. -/
def reset_staleness (ts : List Tracklet) : List Tracklet :=
  ts.map (fun t => { t with staleness := 0 })

/-- Embeds `MultiObjectTracker.increment_staleness`: increment every
tracklet's staleness by 1. -/
def increment_staleness (ts : List Tracklet) : List Tracklet :=
  ts.map (fun t => { t with staleness := t.staleness + 1 })

/-- Embeds `MultiObjectTracker.separate_stale_tracklets`: returns
`(non_stale, stale)`, each in input order. -/
def separate_stale_tracklets (unassigned : List Tracklet) : List Tracklet × List Tracklet :=
  (unassigned.filter (fun t => !t.is_stale), unassigned.filter (fun t => t.is_stale))

/-- Embeds `MultiObjectTracker.cleanup_tracklets`: call `cleanup()` on every
tracklet, then keep only those with `len(tracklet) >= min_length`. -/
def cleanup_tracklets (min_length : Nat) (ts : List Tracklet) : List Tracklet :=
  (ts.map Tracklet.cleanup).filter (fun t => min_length ≤ t.len)

/-- Embeds the staleness-management and registry-commit portion of
`MultiObjectTracker.process_sequence_item` (the code after the subclass
`update` call returns `(assigned, new, unassigned)`). -/
def manage_tracklets (min_length : Nat) (st : MOTState)
    (assigned new_ts unassigned : List Tracklet) : MOTState :=
  let assigned2 := reset_staleness assigned
  let unassigned2 := increment_staleness unassigned
  let sep := separate_stale_tracklets unassigned2
  let stale2 := cleanup_tracklets min_length sep.2
  { st with
    alive_tracklets := assigned2 ++ new_ts ++ sep.1,
    dead_tracklets := st.dead_tracklets ++ stale2 }

/-- One item handed to `process_sequence_item`: `is_ndarray` and `ndim` model
`isinstance(sequence, np.ndarray)` and `len(sequence.shape)`; `data` is an
opaque payload. -/
structure SeqItem where
  is_ndarray : Bool
  ndim : Nat
  data : Nat
deriving DecidableEq, Repr

/-- Embeds the `is_batched` test of `process_sequence_item`:
`isinstance(sequence, np.ndarray) and len(sequence.shape) == 4`. -/
def is_batched (s : SeqItem) : Bool := s.is_ndarray && s.ndim == 4

/-- The exceptions the embedded orchestrator can raise:
`NotImplementedError` for batched input, `ValueError` for a non-iterable
source, and `ValueError` with a message propagated from the update phase. -/
inductive TrackError where
  | not_implemented
  | invalid_input
  | value_error (msg : String)
deriving DecidableEq, Repr

/-- The abstract subclass `update` method: given the current frame count,
the sequence item and the live tracklets, it returns
`(assigned, new, unassigned)` tracklets, or raises (models the `ValueError`
raised by `update_tracklet` inside a subclass update). -/
abbrev UpdateFn :=
  Nat → SeqItem → List Tracklet → Except String (List Tracklet × List Tracklet × List Tracklet)

/-- Embeds `MultiObjectTracker.process_sequence_item`.  The frame counter is
incremented first (source comment: "incremenmt first to match steps alive");
then batched input raises `NotImplementedError`; then the subclass `update`
runs (its exception propagates); finally staleness management and the
registry commit happen.  The returned state carries the mutations committed
up to the raise point, mirroring Python's mutate-then-raise semantics. -/
def process_sequence_item (min_length : Nat) (u : UpdateFn) (st : MOTState)
    (item : SeqItem) : MOTState × Option TrackError :=
  let st1 : MOTState := { st with frame_count := st.frame_count + 1 }
  if is_batched item then
    (st1, some .not_implemented)
  else
    match u st1.frame_count item st1.alive_tracklets with
    | .error e => (st1, some (.value_error e))
    | .ok (a, n, un) => (manage_tracklets min_length st1 a n un, none)

/-- Embeds the loop bounds of `track`:
`range(0, len(sequence) - window_size + 1, step_size)` (empty when
`step_size = 0`, where Python `range` would raise). -/
def window_starts (n w s : Nat) : List Nat :=
  if s = 0 then [] else List.range' 0 ((n + 1 - w + s - 1) / s) s

/-- Models `sequence[i : i + window_size].squeeze()`: a single-frame window
squeezes to that frame; a multi-frame window stays a 4-D array (batched). -/
def squeeze_window : List SeqItem → SeqItem
  | [x] => x
  | l => { is_ndarray := true, ndim := 4, data := l.length }

/-- The sequence items processed by `track`'s loop, in order. -/
def window_items (frames : List SeqItem) (w s : Nat) : List SeqItem :=
  (window_starts frames.length w s).map (fun i => squeeze_window ((frames.drop i).take w))

/-- The input source handed to `track`: either an iterable of frames or a
non-iterable object (which fails the `isinstance(sequence, (Iterable,
np.ndarray))` test). -/
inductive TrackSource where
  | iterable (frames : List SeqItem)
  | non_iterable
deriving DecidableEq, Repr

/-- The frame loop inside `track`: process the items in order; an exception
aborts the loop, carrying the state mutated so far. -/
def track_loop (min_length : Nat) (u : UpdateFn) :
    MOTState → List SeqItem → MOTState × Option TrackError
  | st, [] => (st, none)
  | st, item :: rest =>
    match process_sequence_item min_length u st item with
    | (st2, none) => track_loop min_length u st2 rest
    | (st2, some e) => (st2, some e)

/-- Embeds `MultiObjectTracker.track`: a non-iterable source raises
`ValueError` before `reset()`; otherwise the state is reset, the frame loop
runs, and — when no exception occurred — the final
`self.alive_tracklets = self.cleanup_tracklets(self.alive_tracklets)` pass
runs before export. -/
def track (window_size step_size min_length : Nat) (u : UpdateFn) (st0 : MOTState)
    (source : TrackSource) : MOTState × Option TrackError :=
  match source with
  | .non_iterable => (st0, some .invalid_input)
  | .iterable frames =>
    match track_loop min_length u reset_state (window_items frames window_size step_size) with
    | (st, some e) => (st, some e)
    | (st, none) =>
      ({ st with alive_tracklets := cleanup_tracklets min_length st.alive_tracklets }, none)

/-- Embeds `self.step_size = step_size or window_size` from
`MultiObjectTracker.__init__`: `step_size` is `None` or an int; Python
truthiness makes both `None` and `0` fall back to `window_size`. -/
def init_step_size (window_size : Int) (step_size : Option Int) : Int :=
  match step_size with
  | none => window_size
  | some v => if v = 0 then window_size else v

/-- Modelled from the spec: a minimal concrete subclass `update` in the
style of §4.4 — it treats every live tracklet as matched and routes each
through the base's `update_tracklet` with the frame's states, so a missing
required observation type raises exactly as `update_tracklet` does, and a
successful update records the current frame count. -/
def spec_update (required : List String) (states_of : SeqItem → StateDict) : UpdateFn :=
  fun fc item ts =>
    (ts.mapM (fun t => update_tracklet required t (states_of item) fc)).map
      (fun as => (as, [], []))

/-- A demo tracklet used in witnesses. -/
def t_demo : Tracklet :=
  { max_staleness := 3, staleness := 2, observations := [(0, [("box", 5)])],
    counter := 1, terminated := false }

/-- A stale demo tracklet used in witnesses. -/
def t_stale_demo : Tracklet :=
  { max_staleness := 2, staleness := 2, observations := [(1, [("box", 5)]), (2, [("box", 6)])],
    counter := 2, terminated := false }

/-- A fixture subclass `update` that spawns one new tracklet per frame. -/
def const_new_update : UpdateFn :=
  fun _ _ ts => .ok (ts, [t_demo], [])

/-- A plain single-frame sequence item. -/
def frame_demo : SeqItem := { is_ndarray := false, ndim := 3, data := 0 }

/-- A batched (4-D ndarray) sequence item. -/
def batched_demo : SeqItem := { is_ndarray := true, ndim := 4, data := 0 }

/-- A registry state holding one live tracklet at frame 0. -/
def st_demo : MOTState :=
  { alive_tracklets := [t_demo], dead_tracklets := [], frame_count := 0 }

end mot_base

namespace tracking_model

/-- Modelled from the spec: the per-object tracklet used by the Kalman-style
orchestrator.  `history` records one entry per `update` call — `some box`
for a detection update, `none` for a miss sentinel — and
`last_updated_step` is recorded by detection updates (spec §4.1). -/
structure Tracklet where
  id : Nat
  staleness : Nat
  max_staleness : Nat
  history : List (Option Nat)
  last_updated_step : Option Nat
deriving DecidableEq, Repr

/-- Modelled from the spec (§4.1): `Tracklet.update` with a detection
appends the real observation, sets `staleness = 0` and records
`last_updated_step = step`; with `None` it appends a miss sentinel and
increments `staleness` by 1. -/
def Tracklet.update (t : Tracklet) (detection : Option Nat) (global_step : Option Nat) :
    Tracklet :=
  match detection with
  | some d =>
    { t with history := t.history ++ [some d], staleness := 0,
             last_updated_step := global_step }
  | none => { t with history := t.history ++ [none], staleness := t.staleness + 1 }

/-- Modelled from the spec: stale iff `staleness > max_staleness`. -/
def Tracklet.is_stale (t : Tracklet) : Bool := t.max_staleness < t.staleness

/-- Modelled from the spec: the spec defines no invalidity condition for a
tracklet, so `is_invalid` never holds. -/
def Tracklet.is_invalid (_t : Tracklet) : Bool := false

/-- The orchestrator state of the Kalman-style `MultiObjectTracker`:
`tracker_max_staleness` stands for the `tracker_kwargs` handed to every new
tracker, and `next_id` models the fresh-uuid source for tracker ids. -/
structure MOT where
  trackers : List Tracklet
  stale_trackers : List Tracklet
  detections_matched_ids : List (Option Nat)
  current_step : Nat
  next_id : Nat
  tracker_max_staleness : Nat
deriving DecidableEq, Repr

/-- In-place element update at an index (`self.trackers[i].update(...)`).
Out of range it leaves the list unchanged; Python would raise `IndexError`
there, and every theorem below uses in-range indices only. -/
def modify_nth (f : α → α) : Nat → List α → List α
  | _, [] => []
  | 0, x :: xs => f x :: xs
  | n + 1, x :: xs => x :: modify_nth f n xs

/-- Embeds `MultiObjectTracker.instatiate_tracker_with_detection` (source
spelling): a fresh tracker seeded by exactly one detection update (the
source passes no `global_step` there). -/
def instatiate_tracker_with_detection (max_st tid det : Nat) : Tracklet :=
  Tracklet.update
    { id := tid, staleness := 0, max_staleness := max_st, history := [],
      last_updated_step := none }
    (some det) none

/-- Embeds the matched-pairs loop of `step`: each `(track_idx, det_idx)`
updates the tracker in place with the detection at the current step, and
records the tracker's id at `detections_matched_ids[det_idx]` (a tracker's
id is unchanged by `update`, so reading it before the update is
equivalent to the source's read after it). -/
def apply_matches (detections : List Nat) : MOT → List (Nat × Nat) → MOT
  | st, [] => st
  | st, (track_idx, det_idx) :: rest =>
    apply_matches detections
      { st with
        trackers := modify_nth
          (fun t => t.update detections[det_idx]? (some st.current_step))
          track_idx st.trackers,
        detections_matched_ids := modify_nth
          (fun _ => (st.trackers[track_idx]?).map Tracklet.id) det_idx
          st.detections_matched_ids }
      rest

/-- Embeds `set(range(n)).difference(assigned)`, iterated in ascending
order. -/
def unassigned_idxs (n : Nat) (assigned : List Nat) : List Nat :=
  (List.range n).filter (fun i => !(assigned.contains i))

/-- Embeds the unassigned-detections loop of `step`: each unmatched
detection index spawns a fresh tracker, records its id, and appends it to
the live registry. -/
def create_trackers (detections : List Nat) : MOT → List Nat → MOT
  | st, [] => st
  | st, det_idx :: rest =>
    match detections[det_idx]? with
    | none => create_trackers detections st rest
    | some d =>
      let tracker := instatiate_tracker_with_detection st.tracker_max_staleness st.next_id d
      create_trackers detections
        { st with
          detections_matched_ids := modify_nth (fun _ => some tracker.id) det_idx
            st.detections_matched_ids,
          trackers := st.trackers ++ [tracker],
          next_id := st.next_id + 1 }
        rest

/-- Embeds the unassigned-trackers loop of `step`: each listed tracker index
receives a miss update at the current step. -/
def miss_trackers : MOT → List Nat → MOT
  | st, [] => st
  | st, track_idx :: rest =>
    miss_trackers
      { st with
        trackers := modify_nth
          (fun t => t.update none (some st.current_step)) track_idx st.trackers }
      rest

/-- Embeds `MultiObjectTracker.cleanup_trackers`: stale-and-not-invalid
trackers move to `stale_trackers`; stale-or-invalid trackers leave the live
registry. -/
def cleanup_trackers (st : MOT) : MOT :=
  { st with
    stale_trackers := st.stale_trackers ++
      st.trackers.filter (fun t => t.is_stale && !t.is_invalid),
    trackers := st.trackers.filter (fun t => !(t.is_stale || t.is_invalid)) }

/-- Embeds `MultiObjectTracker.step` up to (excluding) the cleanup pass:
reset `detections_matched_ids`, apply the matching result `matches` (the
matching strategy's output on the current trackers and detections), spawn
trackers for unassigned detections, and miss-update unassigned trackers.
Note that the unassigned-trackers loop ranges over the registry length
measured after the new trackers were appended, exactly as in the source. -/
def step_core (st : MOT) (detections : List Nat) (ms : List (Nat × Nat)) : MOT :=
  let st1 : MOT := { st with detections_matched_ids := List.replicate detections.length none }
  let st2 := apply_matches detections st1 ms
  let st3 := create_trackers detections st2
    (unassigned_idxs detections.length (ms.map Prod.snd))
  miss_trackers st3 (unassigned_idxs st3.trackers.length (ms.map Prod.fst))

/-- Embeds `MultiObjectTracker.step`: the per-frame mutations, then the
cleanup pass, then the step counter advance (the last action). -/
def step (st : MOT) (detections : List Nat) (ms : List (Nat × Nat)) : MOT :=
  let st4 := cleanup_trackers (step_core st detections ms)
  { st4 with current_step := st4.current_step + 1 }

/-- The trackers spawned by a run of the unassigned-detections loop over the
given detection indices, starting from a given fresh id. -/
def spawned (max_st base : Nat) (detections : List Nat) : List Nat → List Tracklet
  | [] => []
  | i :: rest =>
    instatiate_tracker_with_detection max_st base detections[i]! ::
      spawned max_st (base + 1) detections rest

/-- An empty orchestrator state. -/
def empty_mot : MOT :=
  { trackers := [], stale_trackers := [], detections_matched_ids := [],
    current_step := 0, next_id := 0, tracker_max_staleness := 5 }

/-- A demo tracker used in concrete runs. -/
def t_kal_demo : Tracklet :=
  { id := 0, staleness := 0, max_staleness := 5, history := [some 3],
    last_updated_step := some 0 }

/-- An orchestrator state holding one live tracker. -/
def one_mot : MOT :=
  { trackers := [t_kal_demo], stale_trackers := [], detections_matched_ids := [],
    current_step := 0, next_id := 1, tracker_max_staleness := 5 }

end tracking_model

namespace mot_base

/-- Staleness of the `i`-th tracklet after `k` applications of
`increment_staleness`: it grows by exactly `k`. -/
theorem staleness_after_iterate (k : Nat) (ts : List Tracklet) (i : Nat) :
    ((increment_staleness^[k] ts)[i]?).map Tracklet.staleness
      = (ts[i]?).map (fun t => t.staleness + k) := by
  induction k generalizing ts with
  | zero => cases h : ts[i]? <;> simp [h]
  | succ k ih =>
      rw [Function.iterate_succ_apply, ih]
      cases h : ts[i]? <;> simp [increment_staleness, h]
      omega

/-- C3: a tracklet's staleness is set to 0 by the frame phase that handles
matched tracklets (`reset_staleness`), equals exactly `k` after `k`
consecutive unmatched frames (`increment_staleness` applied `k` times after
a reset), and a matched tracklet re-enters the live registry with
staleness 0. -/
theorem staleness_reset_and_increment (ts : List Tracklet) (k i : Nat) (hi : i < ts.length)
    (min_length : Nat) (st : MOTState) (a n u : List Tracklet) (t : Tracklet) (ht : t ∈ a) :
    ((reset_staleness ts)[i]?).map Tracklet.staleness = some 0 ∧
    ((increment_staleness^[k] (reset_staleness ts))[i]?).map Tracklet.staleness = some k ∧
    { t with staleness := 0 } ∈ (manage_tracklets min_length st a n u).alive_tracklets := by
  have hsome : ts[i]? = some ts[i] := List.getElem?_eq_getElem hi
  refine ⟨?_, ?_, ?_⟩
  · simp [reset_staleness, hsome]
  · rw [staleness_after_iterate]
    simp [reset_staleness, hsome]
  · have hmem : { t with staleness := 0 } ∈ reset_staleness a :=
      List.mem_map_of_mem (fun t => { t with staleness := 0 }) ht
    simp only [manage_tracklets, List.mem_append]
    exact Or.inl (Or.inl hmem)

/-- Witness for C3 at a concrete two-tracklet list, `k = 4`, `i = 1`. -/
theorem staleness_reset_and_increment_witness :
    ((reset_staleness [t_demo, t_stale_demo])[1]?).map Tracklet.staleness = some 0 ∧
    ((increment_staleness^[4] (reset_staleness [t_demo, t_stale_demo]))[1]?).map
        Tracklet.staleness = some 4 ∧
    { t_demo with staleness := 0 } ∈
      (manage_tracklets 1 reset_state [t_demo] [] [t_stale_demo]).alive_tracklets :=
  staleness_reset_and_increment [t_demo, t_stale_demo] 4 1 (by decide)
    1 reset_state [t_demo] [] [t_stale_demo] t_demo (by decide)

/-- C2: a tracklet that is unmatched in a frame and whose incremented
staleness exceeds its `max_staleness` is removed from the live registry by
that frame's cleanup pass (neither its incremented form nor its cleaned-up
form is live afterwards), and its cleaned-up form is appended to the dead
(archived) collection iff its total length is at least `min_length`. -/
theorem stale_tracklet_eviction_and_archival (min_length : Nat) (st : MOTState)
    (a n u : List Tracklet) (t : Tracklet) (ht : t ∈ u)
    (hstale : t.max_staleness < t.staleness + 1) (hn : ∀ x ∈ n, x.staleness = 0) :
    ({ t with staleness := t.staleness + 1 } ∉
        (manage_tracklets min_length st a n u).alive_tracklets ∧
      Tracklet.cleanup { t with staleness := t.staleness + 1 } ∉
        (manage_tracklets min_length st a n u).alive_tracklets) ∧
    (Tracklet.cleanup { t with staleness := t.staleness + 1 } ∈
        ((manage_tracklets min_length st a n u).dead_tracklets.drop
          st.dead_tracklets.length) ↔
      min_length ≤ t.len) := by
  have hdrop :
      (manage_tracklets min_length st a n u).dead_tracklets.drop st.dead_tracklets.length
        = cleanup_tracklets min_length
            ((increment_staleness u).filter (fun x => x.is_stale)) := by
    simp [manage_tracklets, separate_stale_tracklets, List.drop_left]
  constructor
  · constructor
    · intro hmem
      simp only [manage_tracklets, separate_stale_tracklets, List.mem_append] at hmem
      rcases hmem with (hres | hnew) | hns
      · rcases List.mem_map.mp hres with ⟨y, _, hy⟩
        have : (0 : Nat) = t.staleness + 1 := congrArg Tracklet.staleness hy
        omega
      · have := hn _ hnew
        simp at this
      · have := (List.mem_filter.mp hns).2
        simp [Tracklet.is_stale] at this
        omega
    · intro hmem
      simp only [manage_tracklets, separate_stale_tracklets, List.mem_append] at hmem
      rcases hmem with (hres | hnew) | hns
      · rcases List.mem_map.mp hres with ⟨y, _, hy⟩
        have : (0 : Nat) = t.staleness + 1 := congrArg Tracklet.staleness hy
        omega
      · have := hn _ hnew
        simp [Tracklet.cleanup] at this
      · have := (List.mem_filter.mp hns).2
        simp [Tracklet.is_stale, Tracklet.cleanup] at this
        omega
  · rw [hdrop]
    have hmemstale : { t with staleness := t.staleness + 1 } ∈
        (increment_staleness u).filter (fun x => x.is_stale) := by
      refine List.mem_filter.mpr ⟨List.mem_map_of_mem _ ht, ?_⟩
      simp [Tracklet.is_stale]
      omega
    constructor
    · intro hmem
      have := (List.mem_filter.mp hmem).2
      simpa [Tracklet.cleanup, Tracklet.len] using this
    · intro hlen
      refine List.mem_filter.mpr ⟨List.mem_map_of_mem _ hmemstale, ?_⟩
      simpa [Tracklet.cleanup, Tracklet.len] using hlen

/-- Witness for C2: a tracklet of length 2 with staleness 2 and
`max_staleness = 2` (so incremented staleness 3 exceeds it) is evicted and,
with `min_length = 1`, archived. -/
theorem stale_tracklet_eviction_and_archival_witness :
    ({ t_stale_demo with staleness := t_stale_demo.staleness + 1 } ∉
        (manage_tracklets 1 reset_state [] [] [t_stale_demo]).alive_tracklets ∧
      Tracklet.cleanup { t_stale_demo with staleness := t_stale_demo.staleness + 1 } ∉
        (manage_tracklets 1 reset_state [] [] [t_stale_demo]).alive_tracklets) ∧
    (Tracklet.cleanup { t_stale_demo with staleness := t_stale_demo.staleness + 1 } ∈
        ((manage_tracklets 1 reset_state [] [] [t_stale_demo]).dead_tracklets.drop
          reset_state.dead_tracklets.length) ↔
      1 ≤ t_stale_demo.len) :=
  stale_tracklet_eviction_and_archival 1 reset_state [] [] [t_stale_demo] t_stale_demo
    (by decide) (by decide) (by intro x hx; simp at hx)

/-- Counterexample to C4: a frame whose states miss the required `box` type
makes the step raise the missing-observation `ValueError`, but the frame
counter mutation is already committed (it moved from 0 to 1), so the step is
not rejected atomically. -/
theorem frame_counter_mutation_on_missing_observation :
    (process_sequence_item 5 (spec_update ["box"] (fun _ => [])) st_demo frame_demo).2
        = some (.value_error "missing required observation types") ∧
    (process_sequence_item 5 (spec_update ["box"] (fun _ => []))
        st_demo frame_demo).1.frame_count = 1 ∧
    st_demo.frame_count = 0 :=
  ⟨rfl, rfl, rfl⟩

/-- C4 (amended): a missing required observation type makes `update_tracklet`
raise before the tracklet is mutated (validation precedes the observation
append), and the failing step leaves the live and dead registries
unreassigned — but the frame counter increment, performed at the start of
the step, is already committed when the error propagates. -/
theorem missing_observation_rejects_update_phase (min_length : Nat) (u : UpdateFn)
    (st : MOTState) (item : SeqItem) (e : String) (required : List String)
    (states : StateDict) (t : Tracklet) (fc : Nat)
    (hb : is_batched item = false)
    (hu : u (st.frame_count + 1) item st.alive_tracklets = .error e)
    (hc : check_required_observations required states = false) :
    process_sequence_item min_length u st item
        = ({ st with frame_count := st.frame_count + 1 }, some (.value_error e)) ∧
    update_tracklet required t states fc = .error "missing required observation types" := by
  constructor
  · simp [process_sequence_item, hb, hu]
  · simp [update_tracklet, hc]

/-- Witness for C4 (amended) at a one-tracklet registry and an update that
requires the `box` observation type of an empty states dict. -/
theorem missing_observation_rejects_update_phase_witness :
    process_sequence_item 5 (spec_update ["box"] (fun _ => [])) st_demo frame_demo
        = ({ st_demo with frame_count := st_demo.frame_count + 1 },
            some (.value_error "missing required observation types")) ∧
    update_tracklet ["box"] t_demo [] 0 = .error "missing required observation types" :=
  missing_observation_rejects_update_phase 5 (spec_update ["box"] (fun _ => []))
    st_demo frame_demo "missing required observation types" ["box"] [] t_demo 0
    rfl rfl (by decide)

/-- Counterexample to C5: a batched (4-D ndarray) item does raise
`NotImplementedError`, but only after the frame counter has been
incremented, so the error is not raised before any registry mutation. -/
theorem frame_counter_mutation_on_batched_input :
    process_sequence_item 5 (spec_update [] (fun _ => [])) st_demo batched_demo
        = ({ st_demo with frame_count := 1 }, some .not_implemented) ∧
    st_demo.frame_count = 0 :=
  ⟨rfl, rfl⟩

/-- C5 (amended): a non-iterable source makes `track` raise `ValueError`
before any registry mutation (the state is returned untouched); a batched
4-D sequence item makes the step raise `NotImplementedError` before the
subclass update runs and before any tracklet or registry-list mutation — but
after the frame counter increment, which remains committed. -/
theorem invalid_input_fail_fast (window_size step_size min_length : Nat) (u : UpdateFn)
    (st0 st : MOTState) (item : SeqItem) (hb : is_batched item = true) :
    track window_size step_size min_length u st0 .non_iterable
        = (st0, some .invalid_input) ∧
    process_sequence_item min_length u st item
        = ({ st with frame_count := st.frame_count + 1 }, some .not_implemented) := by
  constructor
  · rfl
  · simp [process_sequence_item, hb]

/-- Witness for C5 (amended) at a concrete batched item. -/
theorem invalid_input_fail_fast_witness :
    track 1 1 5 (spec_update [] (fun _ => [])) st_demo .non_iterable
        = (st_demo, some .invalid_input) ∧
    process_sequence_item 5 (spec_update [] (fun _ => [])) st_demo batched_demo
        = ({ st_demo with frame_count := st_demo.frame_count + 1 },
            some .not_implemented) :=
  invalid_input_fail_fast 1 1 5 (spec_update [] (fun _ => [])) st_demo st_demo
    batched_demo rfl

/-- C7: when the frame loop finishes without an exception, `track` runs the
final cleanup pass unconditionally: the exported live registry is exactly
`cleanup_tracklets` of the post-loop live registry, and a tracklet that was
still live after the loop is kept for export iff its total length is at
least `min_length`. -/
theorem final_cleanup_filters_min_length (window_size step_size min_length : Nat)
    (u : UpdateFn) (st0 : MOTState) (frames : List SeqItem) (stL : MOTState) (y : Tracklet)
    (h : track_loop min_length u reset_state (window_items frames window_size step_size)
          = (stL, none))
    (hy : y ∈ stL.alive_tracklets) :
    (track window_size step_size min_length u st0 (.iterable frames)).2 = none ∧
    (track window_size step_size min_length u st0 (.iterable frames)).1.alive_tracklets
        = cleanup_tracklets min_length stL.alive_tracklets ∧
    (Tracklet.cleanup y ∈
        (track window_size step_size min_length u st0 (.iterable frames)).1.alive_tracklets ↔
      min_length ≤ y.len) := by
  have htr : track window_size step_size min_length u st0 (.iterable frames)
      = ({ stL with alive_tracklets := cleanup_tracklets min_length stL.alive_tracklets },
          none) := by
    simp [track, h]
  refine ⟨by rw [htr], by rw [htr], ?_⟩
  rw [htr]
  simp only [cleanup_tracklets]
  constructor
  · intro hmem
    have := (List.mem_filter.mp hmem).2
    simpa [Tracklet.cleanup, Tracklet.len] using this
  · intro hlen
    refine List.mem_filter.mpr ⟨List.mem_map_of_mem _ hy, ?_⟩
    simpa [Tracklet.cleanup, Tracklet.len] using hlen

/-- Witness for C7: one frame processed by a subclass update that spawns one
tracklet of length 1; with `min_length = 1` it survives the final cleanup. -/
theorem final_cleanup_filters_min_length_witness :
    (track 1 1 1 const_new_update reset_state (.iterable [frame_demo])).2 = none ∧
    (track 1 1 1 const_new_update reset_state (.iterable [frame_demo])).1.alive_tracklets
        = cleanup_tracklets 1
            (MOTState.alive_tracklets
              { alive_tracklets := [t_demo], dead_tracklets := [], frame_count := 1 }) ∧
    (Tracklet.cleanup t_demo ∈
        (track 1 1 1 const_new_update reset_state (.iterable [frame_demo])).1.alive_tracklets ↔
      1 ≤ t_demo.len) :=
  final_cleanup_filters_min_length 1 1 1 const_new_update reset_state [frame_demo]
    { alive_tracklets := [t_demo], dead_tracklets := [], frame_count := 1 } t_demo
    rfl (by decide)

/-- C10: the stored `step_size` equals the given argument when that argument
is truthy (a non-zero int), and equals `window_size` otherwise; in
particular, passing `step_size=0` silently yields `window_size`. -/
theorem step_size_truthy_fallback (w v : Int) (hv : v ≠ 0) :
    init_step_size w (some v) = v ∧
    init_step_size w none = w ∧
    init_step_size w (some 0) = w := by
  refine ⟨?_, rfl, rfl⟩
  simp [init_step_size, hv]

/-- Witness for C10 at `window_size = 7`, `step_size = 3`. -/
theorem step_size_truthy_fallback_witness :
    init_step_size 7 (some 3) = 3 ∧
    init_step_size 7 none = 7 ∧
    init_step_size 7 (some 0) = 7 :=
  step_size_truthy_fallback 7 3 (by decide)

end mot_base

namespace tracking_model

/-- C1: concrete evaluation at the failing input — an empty registry and one
detection, with the matching strategy returning no pairs.  The newly created
tracker receives a second, miss update in its creation frame: its history
holds two entries (`some 7` from creation and a `none` sentinel) and its
staleness is 1, not 0 (the unassigned-trackers loop of `step` ranges over
the registry length measured after the new trackers were appended). -/
theorem new_tracklet_double_update_bug :
    (step empty_mot [7] []).trackers
        = [{ id := 0, staleness := 1, max_staleness := 5, history := [some 7, none],
             last_updated_step := none }] ∧
    (step empty_mot [7] []).detections_matched_ids = [some 0] ∧
    (step empty_mot [7] []).current_step = 1 :=
  ⟨rfl, rfl, rfl⟩

/-- Counterexample to C6: with one tracker, one detection and the duplicate
matching result `[(0, 0), (0, 0)]`, `step` completes without signalling any
violation, and both duplicate entries are applied — the tracker's history
gains two copies of the detection.  Nothing is detected before updates are
applied. -/
theorem duplicate_match_not_detected :
    (step one_mot [9] [(0, 0), (0, 0)]).trackers
        = [{ id := 0, staleness := 0, max_staleness := 5,
             history := [some 3, some 9, some 9], last_updated_step := some 0 }] ∧
    (step one_mot [9] [(0, 0), (0, 0)]).current_step = 1 :=
  ⟨rfl, rfl⟩

/-- `modify_nth` preserves the list length. -/
theorem length_modify_nth {α : Type} (f : α → α) (n : Nat) (l : List α) :
    (modify_nth f n l).length = l.length := by
  induction l generalizing n with
  | nil => cases n <;> rfl
  | cons x xs ih =>
    cases n with
    | zero => simp [modify_nth]
    | succ n => simp [modify_nth, ih]

/-- Element lookup after `modify_nth`. -/
theorem getElem?_modify_nth {α : Type} (f : α → α) (n i : Nat) (l : List α) :
    (modify_nth f n l)[i]? = if i = n then (l[i]?).map f else l[i]? := by
  induction l generalizing n i with
  | nil => cases n <;> simp [modify_nth]
  | cons x xs ih =>
    cases n with
    | zero =>
      cases i with
      | zero => simp [modify_nth]
      | succ i => simp [modify_nth]
    | succ n =>
      cases i with
      | zero => simp [modify_nth]
      | succ i => simpa [modify_nth] using ih n i

/-- Any `Tracklet.update` call appends exactly one history entry. -/
theorem history_length_update (t : Tracklet) (d g : Option Nat) :
    (t.update d g).history.length = t.history.length + 1 := by
  cases d <;> simp [Tracklet.update]

end tracking_model

namespace tracking_model

/-- The matched-pairs loop leaves the step counter, the id source, the
tracker kwargs and the registry length unchanged. -/
theorem apply_matches_fields (detections : List Nat) (ms : List (Nat × Nat)) (st : MOT) :
    (apply_matches detections st ms).current_step = st.current_step ∧
    (apply_matches detections st ms).next_id = st.next_id ∧
    (apply_matches detections st ms).tracker_max_staleness = st.tracker_max_staleness ∧
    (apply_matches detections st ms).trackers.length = st.trackers.length := by
  induction ms generalizing st with
  | nil => exact ⟨rfl, rfl, rfl, rfl⟩
  | cons m rest ih =>
    obtain ⟨ti, di⟩ := m
    simp only [apply_matches]
    obtain ⟨h1, h2, h3, h4⟩ := ih _
    exact ⟨h1, h2, h3, by rw [h4]; exact length_modify_nth _ _ _⟩

/-- Each occurrence of a tracker index in the matching result is applied as
one update: the tracker's history grows by its occurrence count. -/
theorem apply_matches_history (detections : List Nat) (ms : List (Nat × Nat)) (st : MOT)
    (i : Nat) (hi : i < st.trackers.length) :
    ((apply_matches detections st ms).trackers[i]?).map (fun t => t.history.length)
      = (st.trackers[i]?).map (fun t => t.history.length + (ms.map Prod.fst).count i) := by
  induction ms generalizing st with
  | nil =>
    have hsome := List.getElem?_eq_getElem hi
    simp [apply_matches, hsome]
  | cons m rest ih =>
    obtain ⟨ti, di⟩ := m
    simp only [apply_matches]
    rw [ih _ (by simpa [length_modify_nth] using hi)]
    show ((modify_nth (fun t => t.update detections[di]? (some st.current_step)) ti
        st.trackers)[i]?).map
        (fun t => t.history.length + (rest.map Prod.fst).count i) = _
    rw [getElem?_modify_nth]
    by_cases hti : i = ti
    · subst hti
      have hsome := List.getElem?_eq_getElem hi
      simp [hsome, history_length_update, List.count_cons]
      omega
    · have hne : (ti == i) = false := by
        simp [Ne.symm hti]
      simp [hti, List.count_cons, hne]

/-- The unassigned-detections loop leaves the step counter and tracker
kwargs unchanged and only grows the registry. -/
theorem create_trackers_fields (detections : List Nat) (idxs : List Nat) (st : MOT) :
    (create_trackers detections st idxs).current_step = st.current_step ∧
    (create_trackers detections st idxs).tracker_max_staleness = st.tracker_max_staleness ∧
    st.trackers.length ≤ (create_trackers detections st idxs).trackers.length := by
  induction idxs generalizing st with
  | nil => exact ⟨rfl, rfl, Nat.le_refl _⟩
  | cons j rest ih =>
    simp only [create_trackers]
    cases hd : detections[j]? with
    | none => exact ih st
    | some d =>
      obtain ⟨h1, h2, h3⟩ := ih _
      refine ⟨h1, h2, ?_⟩
      refine Nat.le_trans ?_ h3
      simp

/-- The unassigned-detections loop only appends: lookups below the original
registry length are unchanged. -/
theorem create_trackers_prefix (detections : List Nat) (idxs : List Nat) (st : MOT)
    (i : Nat) (hi : i < st.trackers.length) :
    (create_trackers detections st idxs).trackers[i]? = st.trackers[i]? := by
  induction idxs generalizing st with
  | nil => rfl
  | cons j rest ih =>
    simp only [create_trackers]
    cases hd : detections[j]? with
    | none => exact ih st hi
    | some d =>
      rw [ih _ (by simp; omega)]
      exact List.getElem?_append_left hi

/-- `spawned` produces one tracker per listed detection index. -/
theorem length_spawned (max_st base : Nat) (detections : List Nat) (idxs : List Nat) :
    (spawned max_st base detections idxs).length = idxs.length := by
  induction idxs generalizing base with
  | nil => rfl
  | cons j rest ih => simp [spawned, ih]

/-- The `j`-th spawned tracker is seeded by the `j`-th listed detection and
carries the `j`-th fresh id. -/
theorem getElem?_spawned (max_st : Nat) (detections : List Nat) (idxs : List Nat)
    (base j : Nat) (hj : j < idxs.length) :
    (spawned max_st base detections idxs)[j]?
      = some (instatiate_tracker_with_detection max_st (base + j) detections[idxs[j]]!) := by
  induction idxs generalizing base j with
  | nil => simp at hj
  | cons a rest ih =>
    cases j with
    | zero => simp [spawned]
    | succ j =>
      have hj' : j < rest.length := by simpa using hj
      have harith : base + 1 + j = base + (j + 1) := by omega
      simp only [spawned, List.getElem?_cons_succ, List.getElem_cons_succ]
      rw [ih (base + 1) j hj', harith]

/-- The unassigned-detections loop over in-range indices appends exactly the
spawned trackers. -/
theorem create_trackers_trackers (detections : List Nat) (idxs : List Nat) (st : MOT)
    (h : ∀ j ∈ idxs, j < detections.length) :
    (create_trackers detections st idxs).trackers
      = st.trackers ++ spawned st.tracker_max_staleness st.next_id detections idxs := by
  induction idxs generalizing st with
  | nil => simp [create_trackers, spawned]
  | cons j rest ih =>
    have hj : j < detections.length := h j (List.mem_cons_self j rest)
    simp only [create_trackers]
    cases hd : detections[j]? with
    | none =>
      rw [List.getElem?_eq_getElem hj] at hd
      exact absurd hd (by simp)
    | some d =>
      have hdd : d = detections[j]! := by
        have hg := List.getElem?_eq_getElem hj
        rw [hd] at hg
        rw [getElem!_pos detections j hj]
        exact (Option.some.inj hg)
      subst hdd
      rw [ih _ (fun x hx => h x (List.mem_cons_of_mem j hx))]
      simp [spawned, List.append_assoc]

/-- The unassigned-trackers loop leaves the step counter and the registry
length unchanged. -/
theorem miss_trackers_fields (idxs : List Nat) (st : MOT) :
    (miss_trackers st idxs).current_step = st.current_step ∧
    (miss_trackers st idxs).trackers.length = st.trackers.length := by
  induction idxs generalizing st with
  | nil => exact ⟨rfl, rfl⟩
  | cons a rest ih =>
    simp only [miss_trackers]
    obtain ⟨h1, h2⟩ := ih _
    exact ⟨h1, by rw [h2]; exact length_modify_nth _ _ _⟩

/-- Lookup after the unassigned-trackers loop (for a duplicate-free index
list): a listed tracker receives exactly one miss update, others are
untouched. -/
theorem getElem?_miss_trackers (idxs : List Nat) (st : MOT) (i : Nat) (hnd : idxs.Nodup) :
    (miss_trackers st idxs).trackers[i]?
      = if i ∈ idxs
        then (st.trackers[i]?).map (fun t => t.update none (some st.current_step))
        else st.trackers[i]? := by
  induction idxs generalizing st with
  | nil => simp [miss_trackers]
  | cons a rest ih =>
    have hna : a ∉ rest := (List.nodup_cons.mp hnd).1
    have hnd' : rest.Nodup := (List.nodup_cons.mp hnd).2
    simp only [miss_trackers]
    rw [ih _ hnd']
    by_cases hia : i = a
    · subst hia
      simp only [List.mem_cons, true_or, if_pos, if_neg hna, if_pos rfl]
      show (modify_nth (fun t => t.update none (some st.current_step)) i st.trackers)[i]?
          = _
      rw [getElem?_modify_nth]
      simp
    · by_cases hir : i ∈ rest
      · simp only [hir, if_pos, List.mem_cons, or_true, if_pos (Or.inr hir)]
        show ((modify_nth (fun t => t.update none (some st.current_step)) a
            st.trackers)[i]?).map _ = _
        rw [getElem?_modify_nth, if_neg hia]
      · rw [if_neg hir, if_neg (by simp [List.mem_cons, hia, hir])]
        show (modify_nth (fun t => t.update none (some st.current_step)) a
            st.trackers)[i]? = _
        rw [getElem?_modify_nth, if_neg hia]

/-- Membership in `set(range(n)).difference(assigned)`. -/
theorem mem_unassigned_idxs (n : Nat) (assigned : List Nat) (i : Nat) :
    i ∈ unassigned_idxs n assigned ↔ i < n ∧ i ∉ assigned := by
  simp [unassigned_idxs, List.mem_filter, List.mem_range, List.contains]

/-- The unassigned index list is duplicate-free. -/
theorem nodup_unassigned_idxs (n : Nat) (assigned : List Nat) :
    (unassigned_idxs n assigned).Nodup :=
  (List.nodup_range n).filter _

/-- With no assigned indices, every index is unassigned. -/
theorem unassigned_idxs_nil (n : Nat) : unassigned_idxs n [] = List.range n := by
  simp [unassigned_idxs]

end tracking_model

namespace tracking_model

/-- `step_core` never touches the step counter. -/
theorem step_core_current_step (st : MOT) (detections : List Nat) (ms : List (Nat × Nat)) :
    (step_core st detections ms).current_step = st.current_step := by
  simp only [step_core]
  rw [(miss_trackers_fields _ _).1, (create_trackers_fields _ _ _).1,
    (apply_matches_fields _ _ _).1]

/-- C8: when the matching strategy returns an empty result, every tracker
already in the registry receives exactly one miss (`None`) update for the
frame, and every detection spawns exactly one new tracker, seeded by that
detection with a fresh id (and — see C1 — also miss-updated by the
unassigned-trackers loop). -/
theorem empty_matches_spawn_and_miss (st : MOT) (detections : List Nat) (i j : Nat)
    (hi : i < st.trackers.length) (hj : j < detections.length) :
    (step_core st detections []).trackers.length
        = st.trackers.length + detections.length ∧
    (step_core st detections []).trackers[i]?
        = (st.trackers[i]?).map (fun t => t.update none (some st.current_step)) ∧
    (step_core st detections []).trackers[st.trackers.length + j]?
        = some ((instatiate_tracker_with_detection st.tracker_max_staleness
            (st.next_id + j) detections[j]).update none (some st.current_step)) := by
  have hALL : ∀ x ∈ List.range detections.length, x < detections.length :=
    fun x hx => List.mem_range.mp hx
  set st1 : MOT :=
    { st with detections_matched_ids := List.replicate detections.length none } with hst1
  set st3 : MOT := create_trackers detections st1 (List.range detections.length) with hst3
  have hstep : step_core st detections []
      = miss_trackers st3 (List.range st3.trackers.length) := by
    simp only [step_core, apply_matches, List.map_nil, unassigned_idxs_nil]
  have h3 : st3.trackers
      = st.trackers ++ spawned st.tracker_max_staleness st.next_id detections
          (List.range detections.length) := by
    rw [hst3]
    exact create_trackers_trackers _ _ _ hALL
  have h3cs : st3.current_step = st.current_step := by
    rw [hst3]
    exact (create_trackers_fields _ _ _).1
  have h3len : st3.trackers.length = st.trackers.length + detections.length := by
    rw [h3]
    simp [length_spawned]
  rw [hstep]
  refine ⟨?_, ?_, ?_⟩
  · rw [(miss_trackers_fields _ _).2, h3len]
  · rw [getElem?_miss_trackers _ _ _ (List.nodup_range _),
      if_pos (List.mem_range.mpr (by rw [h3len]; omega))]
    have hpre : st3.trackers[i]? = st.trackers[i]? := by
      rw [hst3]
      exact create_trackers_prefix detections (List.range detections.length) st1 i hi
    rw [hpre, h3cs]
  · rw [getElem?_miss_trackers _ _ _ (List.nodup_range _),
      if_pos (List.mem_range.mpr (by rw [h3len]; omega))]
    rw [h3cs]
    have happ : st3.trackers[st.trackers.length + j]?
        = (spawned st.tracker_max_staleness st.next_id detections
            (List.range detections.length))[j]? := by
      rw [h3, List.getElem?_append_right (by omega)]
      congr 1
      omega
    have hjr : j < (List.range detections.length).length := by simpa using hj
    rw [happ, getElem?_spawned _ _ _ _ _ hjr]
    have hrange : (List.range detections.length)[j] = j :=
      List.getElem_range j hjr
    rw [hrange, getElem!_pos detections j hj]
    rfl

/-- Witness for C8: one pre-existing tracker and two detections with an
empty matching result. -/
theorem empty_matches_spawn_and_miss_witness :
    (step_core one_mot [4, 9] []).trackers.length
        = one_mot.trackers.length + [4, 9].length ∧
    (step_core one_mot [4, 9] []).trackers[0]?
        = (one_mot.trackers[0]?).map (fun t => t.update none (some one_mot.current_step)) ∧
    (step_core one_mot [4, 9] []).trackers[one_mot.trackers.length + 1]?
        = some ((instatiate_tracker_with_detection one_mot.tracker_max_staleness
            (one_mot.next_id + 1) 9).update none (some one_mot.current_step)) :=
  empty_matches_spawn_and_miss one_mot [4, 9] 0 1 (by decide) (by decide)

end tracking_model

namespace tracking_model

/-- C6 (amended): the orchestrator performs no duplicate-index check on the
matching result and signals nothing — every entry is applied as a separate
update call.  Before the cleanup pass, a tracker whose index occurs
`k ≥ 1` times in the matching result has been updated exactly `k` times in
the frame, and a tracker whose index does not occur receives exactly one
miss update. -/
theorem matches_applied_per_occurrence (st : MOT) (detections : List Nat)
    (ms : List (Nat × Nat)) (i : Nat) (hi : i < st.trackers.length)
    (_hm : ∀ m ∈ ms, m.1 < st.trackers.length ∧ m.2 < detections.length) :
    ((step_core st detections ms).trackers[i]?).map (fun t => t.history.length)
      = (st.trackers[i]?).map (fun t => t.history.length +
          (if (ms.map Prod.fst).count i = 0 then 1 else (ms.map Prod.fst).count i)) := by
  have hsome : st.trackers[i]? = some st.trackers[i] := List.getElem?_eq_getElem hi
  simp only [step_core]
  set st1 : MOT :=
    { st with detections_matched_ids := List.replicate detections.length none } with hst1
  set st2 : MOT := apply_matches detections st1 ms with hst2
  set st3 : MOT :=
    create_trackers detections st2 (unassigned_idxs detections.length (ms.map Prod.snd))
    with hst3
  have hi1 : i < st1.trackers.length := hi
  have hlen2 : st2.trackers.length = st.trackers.length := by
    rw [hst2]
    exact (apply_matches_fields detections ms st1).2.2.2
  have hi2 : i < st2.trackers.length := by rw [hlen2]; exact hi
  have hcs2 : st2.current_step = st.current_step := by
    rw [hst2]
    exact (apply_matches_fields detections ms st1).1
  have hcs3 : st3.current_step = st.current_step := by
    rw [hst3]
    rw [(create_trackers_fields _ _ _).1]
    exact hcs2
  have hlen3 : st.trackers.length ≤ st3.trackers.length := by
    rw [hst3]
    refine Nat.le_trans (Nat.le_of_eq hlen2.symm) ?_
    exact (create_trackers_fields _ _ _).2.2
  have hpre : st3.trackers[i]? = st2.trackers[i]? := by
    rw [hst3]
    exact create_trackers_prefix _ _ _ _ hi2
  have hhist := apply_matches_history detections ms st1 i hi1
  rw [← hst2] at hhist
  obtain ⟨t2, ht2eq, ht2len⟩ : ∃ t2, st2.trackers[i]? = some t2 ∧
      t2.history.length = st.trackers[i].history.length + (ms.map Prod.fst).count i := by
    cases h2 : st2.trackers[i]? with
    | none =>
      rw [h2, hsome] at hhist
      simp at hhist
    | some t2 =>
      rw [h2, hsome] at hhist
      simp at hhist
      exact ⟨t2, rfl, hhist⟩
  by_cases hc : (ms.map Prod.fst).count i = 0
  · have hni : i ∉ ms.map Prod.fst := List.count_eq_zero.mp hc
    have hmem : i ∈ unassigned_idxs st3.trackers.length (ms.map Prod.fst) :=
      (mem_unassigned_idxs _ _ _).mpr ⟨Nat.lt_of_lt_of_le hi hlen3, hni⟩
    rw [getElem?_miss_trackers _ _ _ (nodup_unassigned_idxs _ _), if_pos hmem]
    rw [hpre, ht2eq, hsome]
    simp [history_length_update, hcs3, ht2len, hc]
  · have hmemf : i ∈ ms.map Prod.fst := by
      by_contra hni
      exact hc (List.count_eq_zero.mpr hni)
    have hnmem : i ∉ unassigned_idxs st3.trackers.length (ms.map Prod.fst) := by
      rw [mem_unassigned_idxs]
      simp [hmemf]
    rw [getElem?_miss_trackers _ _ _ (nodup_unassigned_idxs _ _), if_neg hnmem]
    rw [hpre, ht2eq, hsome]
    simp [ht2len, hc]

/-- Witness for C6 (amended): one tracker, one detection, and the duplicate
matching result `[(0, 0), (0, 0)]` — index 0 occurs twice, so the tracker's
history grows by exactly 2. -/
theorem matches_applied_per_occurrence_witness :
    ((step_core one_mot [9] [(0, 0), (0, 0)]).trackers[0]?).map
        (fun t => t.history.length)
      = (one_mot.trackers[0]?).map (fun t => t.history.length +
          (if ([(0, 0), (0, 0)].map Prod.fst).count 0 = 0 then 1
           else ([(0, 0), (0, 0)].map Prod.fst).count 0)) :=
  matches_applied_per_occurrence one_mot [9] [(0, 0), (0, 0)] 0 (by decide)
    (by intro m hm; fin_cases hm <;> exact ⟨by decide, by decide⟩)

end tracking_model

namespace mot_base

/-- Counterexample to C9: in the ABC orchestrator, processing the first
frame (pre-step counter 0) records the in-frame observation at frame index
1 — the counter is advanced before the matching/update work, not after it,
so the advance is not the last action of the per-frame algorithm there. -/
theorem base_counter_increment_before_updates :
    (process_sequence_item 5
        (spec_update [] (fun _ => [("box", 2)])) st_demo frame_demo).1.alive_tracklets
      = [{ max_staleness := 3, staleness := 0,
           observations := [(0, [("box", 5)]), (1, [("box", 2)])],
           counter := 2, terminated := false }] ∧
    st_demo.frame_count = 0 :=
  ⟨rfl, rfl⟩

end mot_base

namespace tracking_model

/-- C9 (amended): both orchestrators advance their step counter by exactly 1
per processed frame.  In the Kalman-style orchestrator the advance is the
last action: a matched update records `last_updated_step` equal to the
pre-step counter value.  In the ABC orchestrator the counter is incremented
first, so the frame's updates observe (and record) the already-advanced
value `frame_count + 1`. -/
theorem step_counter_advance
    (st : MOT) (detections : List Nat) (ms : List (Nat × Nat)) (ti di : Nat)
    (hti : ti < st.trackers.length) (hdi : di < detections.length)
    (min_length : Nat) (stA : mot_base.MOTState) (item : mot_base.SeqItem)
    (required : List String) (sof : mot_base.SeqItem → mot_base.StateDict)
    (tA : mot_base.Tracklet)
    (hb : mot_base.is_batched item = false)
    (hc : mot_base.check_required_observations required (sof item) = true)
    (halive : stA.alive_tracklets = [tA]) :
    (step st detections ms).current_step = st.current_step + 1 ∧
    ((step_core st detections [(ti, di)]).trackers[ti]?).map Tracklet.last_updated_step
        = some (some st.current_step) ∧
    (mot_base.process_sequence_item min_length (mot_base.spec_update required sof)
        stA item).1.frame_count = stA.frame_count + 1 ∧
    (mot_base.process_sequence_item min_length (mot_base.spec_update required sof)
        stA item).1.alive_tracklets
      = mot_base.reset_staleness
          [mot_base.increment_counter
            (mot_base.update_observations tA (sof item) (stA.frame_count + 1))] := by
  have hupd : mot_base.update_tracklet required tA (sof item) (stA.frame_count + 1)
      = .ok (mot_base.increment_counter
          (mot_base.update_observations tA (sof item) (stA.frame_count + 1))) := by
    simp [mot_base.update_tracklet, hc]
  have hproc : mot_base.process_sequence_item min_length
      (mot_base.spec_update required sof) stA item
      = (mot_base.manage_tracklets min_length
            { stA with frame_count := stA.frame_count + 1 }
            [mot_base.increment_counter
              (mot_base.update_observations tA (sof item) (stA.frame_count + 1))]
            [] [],
          none) := by
    simp only [mot_base.process_sequence_item, hb, Bool.false_eq_true, if_false]
    have hsu : mot_base.spec_update required sof (stA.frame_count + 1) item
        stA.alive_tracklets
        = .ok ([mot_base.increment_counter
            (mot_base.update_observations tA (sof item) (stA.frame_count + 1))], [], []) := by
      rw [halive]
      simp [mot_base.spec_update, List.mapM, List.mapM.loop, hupd, Except.map]
    rw [show ({ stA with frame_count := stA.frame_count + 1 } :
          mot_base.MOTState).alive_tracklets = stA.alive_tracklets from rfl] at hsu
    rw [hsu]
  refine ⟨?_, ?_, ?_, ?_⟩
  · show (cleanup_trackers (step_core st detections ms)).current_step + 1
        = st.current_step + 1
    rw [show (cleanup_trackers (step_core st detections ms)).current_step
        = (step_core st detections ms).current_step from rfl]
    rw [step_core_current_step]
  · have hsome : st.trackers[ti]? = some st.trackers[ti] := List.getElem?_eq_getElem hti
    simp only [step_core, apply_matches, List.map_cons, List.map_nil]
    set st1' : MOT :=
      { st with
        detections_matched_ids := modify_nth
          (fun _ => (st.trackers[ti]?).map Tracklet.id) di
          (List.replicate detections.length none),
        trackers := modify_nth
          (fun t => t.update detections[di]? (some st.current_step)) ti st.trackers }
      with hst1'
    set st3' : MOT :=
      create_trackers detections st1' (unassigned_idxs detections.length [di]) with hst3'
    have hlen1' : st1'.trackers.length = st.trackers.length := by
      rw [hst1']
      exact length_modify_nth _ _ _
    have hpre : st3'.trackers[ti]? = st1'.trackers[ti]? := by
      rw [hst3']
      exact create_trackers_prefix _ _ _ _ (by rw [hlen1']; exact hti)
    have hnomem : ti ∉ unassigned_idxs st3'.trackers.length [ti] := by
      rw [mem_unassigned_idxs]
      simp
    rw [getElem?_miss_trackers _ _ _ (nodup_unassigned_idxs _ _), if_neg hnomem]
    rw [hpre, hst1']
    show ((modify_nth (fun t => t.update detections[di]? (some st.current_step)) ti
        st.trackers)[ti]?).map Tracklet.last_updated_step = some (some st.current_step)
    rw [getElem?_modify_nth, if_pos rfl, hsome]
    rw [List.getElem?_eq_getElem hdi]
    simp [Tracklet.update]
  · rw [hproc]
    rfl
  · rw [hproc]
    show mot_base.reset_staleness
        [mot_base.increment_counter
          (mot_base.update_observations tA (sof item) (stA.frame_count + 1))] ++ [] ++
        (mot_base.separate_stale_tracklets (mot_base.increment_staleness [])).1 = _
    simp [mot_base.separate_stale_tracklets, mot_base.increment_staleness]

/-- Witness for C9 at a one-tracker Kalman state with a single match and a
one-tracklet ABC state with an always-valid update. -/
theorem step_counter_advance_witness :
    (step one_mot [9] [(0, 0)]).current_step = one_mot.current_step + 1 ∧
    ((step_core one_mot [9] [(0, 0)]).trackers[0]?).map Tracklet.last_updated_step
        = some (some one_mot.current_step) ∧
    (mot_base.process_sequence_item 5
        (mot_base.spec_update [] (fun _ => [("box", 2)]))
        mot_base.st_demo mot_base.frame_demo).1.frame_count
        = mot_base.st_demo.frame_count + 1 ∧
    (mot_base.process_sequence_item 5
        (mot_base.spec_update [] (fun _ => [("box", 2)]))
        mot_base.st_demo mot_base.frame_demo).1.alive_tracklets
      = mot_base.reset_staleness
          [mot_base.increment_counter
            (mot_base.update_observations mot_base.t_demo [("box", 2)]
              (mot_base.st_demo.frame_count + 1))] :=
  step_counter_advance one_mot [9] [(0, 0)] 0 0 (by decide) (by decide)
    5 mot_base.st_demo mot_base.frame_demo [] (fun _ => [("box", 2)])
    mot_base.t_demo rfl rfl rfl

end tracking_model
